import Mathlib

/-!
Shallow embedding of the Gemini Image Editor front-end
(src/types.ts and src/services/geminiService.ts).

The embedding models:
* the `App` component state (image, messages, prompt, loading, error,
  history, historyIndex, mask) and its handlers `handleImageUpload`,
  `handleSubmitPrompt` (split at its single await point into a pre-flight
  part and a success/failure resolution), `handleUndo`, `handleRedo`,
  `handleClearImage`;
* the `ChatPanel` submit gate (`handleSubmit`), which dispatches to
  `handleSubmitPrompt` only when the trimmed prompt is non-empty, no
  submission is loading, and an image is loaded;
* the `ImageDisplay` mask-canvas engine (`startDrawing`, `draw`,
  `stopDrawing`, `handleClearMask`, `toggleBrushMode`, and the
  image-change effect that clears the canvas and the mask);
* the remote wrapper `editImageWithGemini`, over an abstract outcome of
  the network call (a transport error or a `GenerateContentResponse`).

JavaScript idioms are translated explicitly: `arr.slice(0, e)` with a
possibly negative `e` becomes `jsSliceTo`, `arr[i]` with an `Int` index
becomes `jsGet`, and `historyIndex` is an `Int` because the code stores
`-1` in it for the empty history.
-/

set_option autoImplicit false

namespace GeminiImageEditor

/-- `ImageData` from src/types.ts: a base64 payload plus a mime type. -/
structure ImageData where
  base64 : String
  mimeType : String
deriving DecidableEq, Repr

/-- `ChatMessage` from src/types.ts; `role` is always the literal string
"user" in the source, kept as a field for fidelity. -/
structure ChatMessage where
  id : String
  role : String
  content : String
deriving DecidableEq, Repr

/-- JavaScript `arr.slice(0, stop)`: a negative `stop` counts from the end
(`length + stop`), and the result is clamped to the array bounds. -/
def jsSliceTo {α : Type} (l : List α) (stop : Int) : List α :=
  l.take (if stop < 0 then ((l.length : Int) + stop).toNat else stop.toNat)

/-- JavaScript `arr[i]` for an `Int` index: `undefined` (here `none`) when
out of bounds or negative. -/
def jsGet {α : Type} (l : List α) (i : Int) : Option α :=
  if i < 0 then none else l.get? i.toNat

/-- The `useState` fields of the `App` component
(src/services/geminiService.ts, `App`). -/
structure AppState where
  image : Option ImageData
  messages : List ChatMessage
  prompt : String
  loading : Bool
  error : Option String
  history : List ImageData
  historyIndex : Int
  mask : Option ImageData
deriving DecidableEq, Repr

/-- The initial `App` state: no image, no messages, empty prompt, not
loading, no error, empty history with index `-1`, no mask. -/
def initialState : AppState :=
  { image := none, messages := [], prompt := "", loading := false,
    error := none, history := [], historyIndex := -1, mask := none }

/-- `handleImageUpload`, success path: after `fileToData` resolves, the
image becomes the decoded file, history is reset to `[imageData]` with
index `0`, messages are cleared, the mask is cleared; `setLoading(true)`
then `finally setLoading(false)` nets to `loading = false`, and
`setError(null)` clears the error. -/
def handleImageUpload (s : AppState) (imageData : ImageData) : AppState :=
  { s with
    image := some imageData, history := [imageData], historyIndex := 0,
    messages := [], mask := none, error := none, loading := false }

/-- `handleImageUpload`, failure path (`fileToData` rejects): only the
error banner is set; image, history, index, messages and mask are kept. -/
def handleImageUploadFail (s : AppState) : AppState :=
  { s with
    error := some "Failed to load image. Please try another file."
    loading := false }

/-- The early-return branch of `handleSubmitPrompt` when `image` is null:
`setError(...)` and return, touching nothing else. -/
def submitNoImage (s : AppState) : AppState :=
  { s with error := some "Please upload an image before submitting a prompt." }

/-- The part of `handleSubmitPrompt` executed before the `await` of
`editImageWithGemini`, once the image guard passed: `setLoading(true)`,
`setError(null)`, `setPrompt('')`, and the optimistic append of the new
`ChatMessage` (whose id is `Date.now().toString()`, abstracted as
`msgId`). -/
def submitStart (s : AppState) (currentPrompt msgId : String) : AppState :=
  { s with
    loading := true, error := none, prompt := ""
    messages := s.messages ++ [⟨msgId, "user", currentPrompt⟩] }

/-- The success continuation of `handleSubmitPrompt`: builds
`newImageData = ⟨...image, base64: newImageBase64⟩` from the captured
image `img`, truncates the history with `slice(0, historyIndex + 1)`,
appends the new image, moves the index to the new last position, sets
the image, clears the mask; `finally` clears `loading`. -/
def submitSuccess (s : AppState) (img : ImageData)
    (newImageBase64 : String) : AppState :=
  let newImageData : ImageData := { img with base64 := newImageBase64 }
  let newHistory := jsSliceTo s.history (s.historyIndex + 1) ++ [newImageData]
  { s with
    history := newHistory, historyIndex := (newHistory.length : Int) - 1,
    image := some newImageData, mask := none, loading := false }

/-- The catch branch of `handleSubmitPrompt`: sets the error banner and
removes the last message with `prev.slice(0, -1)`; `finally` clears
`loading`. -/
def submitFail (s : AppState) (errMsg : String) : AppState :=
  { s with
    error := some errMsg, messages := jsSliceTo s.messages (-1),
    loading := false }

/-- `handleSubmitPrompt` run to completion with a successful remote call
returning `newImageBase64`. -/
def handleSubmitPromptSuccess (s : AppState)
    (currentPrompt msgId newImageBase64 : String) : AppState :=
  match s.image with
  | none => submitNoImage s
  | some img => submitSuccess (submitStart s currentPrompt msgId) img newImageBase64

/-- `handleSubmitPrompt` run to completion with a failing remote call
whose error message is `errMsg`. -/
def handleSubmitPromptFail (s : AppState)
    (currentPrompt msgId errMsg : String) : AppState :=
  match s.image with
  | none => submitNoImage s
  | some _ => submitFail (submitStart s currentPrompt msgId) errMsg

/-- `handleUndo`: when `historyIndex > 0`, steps the index back and shows
`history[newIndex]`, clearing the mask; otherwise does nothing. -/
def handleUndo (s : AppState) : AppState :=
  if s.historyIndex > 0 then
    let newIndex := s.historyIndex - 1
    { s with
      historyIndex := newIndex, image := jsGet s.history newIndex,
      mask := none }
  else s

/-- `handleRedo`: when `historyIndex < history.length - 1`, steps the
index forward and shows `history[newIndex]`, clearing the mask;
otherwise does nothing. -/
def handleRedo (s : AppState) : AppState :=
  if s.historyIndex < (s.history.length : Int) - 1 then
    let newIndex := s.historyIndex + 1
    { s with
      historyIndex := newIndex, image := jsGet s.history newIndex,
      mask := none }
  else s

/-- `handleClearImage`: drops the image, messages, history (index `-1`),
mask, and error. -/
def handleClearImage (s : AppState) : AppState :=
  { s with
    image := none, messages := [], history := [], historyIndex := -1,
    mask := none, error := none }

/-- `canUndo` in `App`. -/
def canUndo (s : AppState) : Bool := s.historyIndex > 0

/-- `canRedo` in `App`. -/
def canRedo (s : AppState) : Bool :=
  s.historyIndex < (s.history.length : Int) - 1

/-- `setMask` passed to `ImageDisplay` as `onMaskChange`. -/
def setMask (s : AppState) (m : Option ImageData) : AppState :=
  { s with mask := m }

/-- The events that drive the `App` state: upload (success and failure),
a submission resolved successfully or with a failure, undo, redo, clear
image, and a mask change from the canvas layer. -/
inductive AppEvent where
  | upload (img : ImageData)
  | uploadFail
  | submitOk (currentPrompt msgId newImageBase64 : String)
  | submitErr (currentPrompt msgId errMsg : String)
  | undo
  | redo
  | clearImage
  | maskChange (m : Option ImageData)
deriving DecidableEq, Repr

/-- One `App` event applied to the state. -/
def step (s : AppState) : AppEvent → AppState
  | .upload img => handleImageUpload s img
  | .uploadFail => handleImageUploadFail s
  | .submitOk p msgId b => handleSubmitPromptSuccess s p msgId b
  | .submitErr p msgId e => handleSubmitPromptFail s p msgId e
  | .undo => handleUndo s
  | .redo => handleRedo s
  | .clearImage => handleClearImage s
  | .maskChange m => setMask s m

/-- Run a list of events from a state. -/
def run (s : AppState) (evs : List AppEvent) : AppState :=
  evs.foldl step s

/-- A state is reachable when some event sequence produces it from the
initial state. -/
def Reachable (s : AppState) : Prop :=
  ∃ evs : List AppEvent, s = run initialState evs

/-- The cursor/image well-formedness the `App` handlers maintain: an empty
history has index `-1` and no image; a non-empty history has its index in
bounds and the displayed image equal to `history[historyIndex]`. -/
def StateWF (s : AppState) : Prop :=
  (s.history = [] → s.historyIndex = -1 ∧ s.image = none) ∧
  (s.history ≠ [] →
    0 ≤ s.historyIndex ∧ s.historyIndex < (s.history.length : Int) ∧
    s.image = jsGet s.history s.historyIndex)

/-- The outcome of the awaited `editImageWithGemini` call as seen by
`handleSubmitPrompt`: either the new base64 payload or a thrown error
message. -/
inductive RemoteOutcome where
  | success (newImageBase64 : String)
  | failure (errMsg : String)
deriving DecidableEq, Repr

/-- JavaScript `String.prototype.trim()`: strips leading and trailing
whitespace, written over the character list so that it evaluates inside
the kernel. -/
def jsTrim (s : String) : String :=
  ⟨((s.data.dropWhile Char.isWhitespace).reverse.dropWhile
      Char.isWhitespace).reverse⟩

/-- The `ChatPanel` `handleSubmit` gate: `onSubmit(prompt)` runs only when
`prompt.trim()` is truthy (non-empty), `loading` is false, and
`imageLoaded` (that is, `!!image`) holds. -/
def chatSubmitDispatches (s : AppState) : Bool :=
  !(jsTrim s.prompt == "") && !s.loading && s.image.isSome

/-- A whole submission attempt through the `ChatPanel` form: when the gate
passes, `handleSubmitPrompt` runs on the current prompt and resolves with
`outcome`; when the gate fails, nothing at all happens. -/
def chatHandleSubmit (s : AppState) (msgId : String)
    (outcome : RemoteOutcome) : AppState :=
  if chatSubmitDispatches s then
    match outcome with
    | .success b => handleSubmitPromptSuccess s s.prompt msgId b
    | .failure e => handleSubmitPromptFail s s.prompt msgId e
  else s

/-- One painted stroke segment on the overlay canvas
(`context.lineTo`/`context.stroke` inside `draw`): endpoints, the line
width, the stroke color, and whether the composite mode was
`destination-out` (erasing). -/
structure Segment where
  fromX : Int
  fromY : Int
  toX : Int
  toY : Int
  width : Nat
  color : String
  erase : Bool
deriving DecidableEq, Repr

/-- The `ImageDisplay` drawing state: the `isDrawing`/`isBrushMode`/
`isErasing`/`brushSize`/`brushColor` `useState` fields, the open path
position (`beginPath`/`moveTo`/`lineTo`), the painted content of the
overlay canvas since its last clear (as the list of stroked segments; the
empty list means no pixel was ever painted, hence a fully transparent
surface), and the `App`-side `mask` as last emitted through
`onMaskChange`. -/
structure MaskCanvasState where
  isDrawing : Bool
  isBrushMode : Bool
  isErasing : Bool
  brushSize : Nat
  brushColor : String
  pathPos : Option (Int × Int)
  segments : List Segment
  mask : Option ImageData
deriving DecidableEq, Repr

/-- The initial `ImageDisplay` state: not drawing, brush mode off, not
erasing, brush size 15, brush color `MASK_COLORS[0]`, no open path, a
blank canvas, no mask. -/
def initialMaskCanvasState : MaskCanvasState :=
  { isDrawing := false, isBrushMode := false, isErasing := false,
    brushSize := 15, brushColor := "rgba(239, 68, 68, 0.7)",
    pathPos := none, segments := [], mask := none }

/-- A blank overlay (no segment painted since the last `clearRect`) is
fully transparent. (Erase-mode segments could also leave the surface
transparent; emptiness is the sufficient condition the claims need.) -/
def fullyTransparent (segs : List Segment) : Bool := segs.isEmpty

/-- Abstraction of `canvas.toDataURL().split(',')[1]`: an opaque encoding
of the canvas pixel content into a base64 payload string. -/
def serializeCanvas (segs : List Segment) : String := toString (repr segs)

/-- `toggleBrushMode`: flips brush mode; entering brush mode turns erase
mode off. -/
def toggleBrushMode (s : MaskCanvasState) : MaskCanvasState :=
  let newMode := !s.isBrushMode
  if newMode then { s with isBrushMode := newMode, isErasing := false }
  else { s with isBrushMode := newMode }

/-- `startDrawing`: ignored unless brush mode is on; otherwise sets
`isDrawing`, configures the context, and opens a path at the event
coordinates (`beginPath`; `moveTo(x, y)`). Nothing is painted yet. -/
def startDrawing (s : MaskCanvasState) (x y : Int) : MaskCanvasState :=
  if !s.isBrushMode then s
  else { s with isDrawing := true, pathPos := some (x, y) }

/-- `draw`: ignored unless a stroke is open in brush mode; otherwise
paints a segment from the current path position to `(x, y)` with the
current width, color, and composite mode (`lineTo`; `stroke`). -/
def draw (s : MaskCanvasState) (x y : Int) : MaskCanvasState :=
  if !s.isDrawing || !s.isBrushMode then s
  else
    match s.pathPos with
    | none => s
    | some p =>
      { s with
        segments := s.segments ++
          [⟨p.1, p.2, x, y, s.brushSize, s.brushColor, s.isErasing⟩],
        pathPos := some (x, y) }

/-- `stopDrawing`: returns immediately when no stroke is in progress;
otherwise ends the stroke, closes the path, serializes the whole canvas,
and emits it as a present mask via
`onMaskChange(⟨base64, 'image/png'⟩)` — unconditionally, with no
transparency check. -/
def stopDrawing (s : MaskCanvasState) : MaskCanvasState :=
  if !s.isDrawing then s
  else
    { s with
      isDrawing := false, pathPos := none,
      mask := some ⟨serializeCanvas s.segments, "image/png"⟩ }

/-- `handleClearMask`: `clearCanvas()` (wipes the overlay pixels) and
`onMaskChange(null)`. -/
def handleClearMask (s : MaskCanvasState) : MaskCanvasState :=
  { s with segments := [], mask := none }

/-- The `useEffect` on `[image]` in `ImageDisplay`: on any change of the
displayed image, `clearCanvas()` and `onMaskChange(null)`. -/
def imageChangeEffect (s : MaskCanvasState) : MaskCanvasState :=
  { s with segments := [], mask := none }

/-- `inlineData` as it appears in a `GenerateContentResponse` part. -/
structure InlineData where
  data : String
  mimeType : String
deriving DecidableEq, Repr

/-- A response `Part`: possibly inline image data, possibly text. -/
structure ResponsePart where
  inlineData : Option InlineData
  text : Option String
deriving DecidableEq, Repr

/-- A candidate's `content`, holding an optional parts list. -/
structure ResponseContent where
  parts : Option (List ResponsePart)
deriving DecidableEq, Repr

/-- One response candidate. -/
structure Candidate where
  content : Option ResponseContent
deriving DecidableEq, Repr

/-- The shape of `GenerateContentResponse` that `editImageWithGemini`
inspects. -/
structure GenerateContentResponse where
  candidates : Option (List Candidate)
deriving DecidableEq, Repr

/-- `response.candidates?.[0]?.content?.parts || []`: optional chaining
collapsing any missing link to the empty list. -/
def responseParts (r : GenerateContentResponse) : List ResponsePart :=
  match r.candidates with
  | none => []
  | some cs =>
    match cs.head? with
    | none => []
    | some c =>
      match c.content with
      | none => []
      | some content => content.parts.getD []

/-- The `for` loop over the parts: the `data` of the first part carrying
`inlineData`, if any. -/
def firstInlineData : List ResponsePart → Option String
  | [] => none
  | p :: rest =>
    match p.inlineData with
    | some d => some d.data
    | none => firstInlineData rest

/-- The single normalized user-facing failure message thrown by the
`catch` block of `editImageWithGemini`. -/
def geminiFailureMessage : String :=
  "Failed to process the image edit. Please try again."

/-- What the awaited network call produced before `editImageWithGemini`
post-processes it: a response object, or a thrown transport/auth error. -/
inductive RemoteCallResult where
  | ok (response : GenerateContentResponse)
  | transportError (msg : String)
deriving DecidableEq, Repr

/-- `editImageWithGemini` as a function of the network call's outcome.
On a response it returns the first inline image payload; failing that it
throws `No image data found in the API response.`, which the enclosing
`catch` — like any transport error — replaces with the one normalized
message before rethrowing. -/
def editImageWithGemini (result : RemoteCallResult) : Except String String :=
  match result with
  | .transportError _ => .error geminiFailureMessage
  | .ok response =>
    match firstInlineData (responseParts response) with
    | some data => .ok data
    | none => .error geminiFailureMessage

/-! ### Helper lemmas about the JavaScript primitives -/

theorem jsSliceTo_of_nonneg {α : Type} (l : List α) (k : Int) (hk : 0 ≤ k) :
    jsSliceTo l k = l.take k.toNat := by
  simp [jsSliceTo, not_lt.mpr hk]

theorem jsSliceTo_concat_neg_one {α : Type} (l : List α) (a : α) :
    jsSliceTo (l ++ [a]) (-1) = l := by
  have h : (((l ++ [a]).length : Int) + (-1)).toNat = l.length := by
    simp
  simp only [jsSliceTo, if_pos (by norm_num : (-1 : Int) < 0), h]
  exact List.take_left l [a]

theorem jsGet_concat_length {α : Type} (l : List α) (a : α) :
    jsGet (l ++ [a]) (l.length : Int) = some a := by
  simp only [jsGet, if_neg (by omega : ¬ ((l.length : Int) < 0)),
    Int.toNat_natCast]
  exact List.get?_concat_length l a

/-! ### Concrete states used by witnesses -/

/-- A concrete image `A`. -/
def imgA : ImageData := ⟨"AAA", "image/png"⟩

/-- A concrete image `B`. -/
def imgB : ImageData := ⟨"BBB", "image/png"⟩

/-- A concrete image `C`. -/
def imgC : ImageData := ⟨"CCC", "image/png"⟩

/-- A concrete app state with history `[A, B, C]` at cursor `2`,
displaying `C`. -/
def historyABC : AppState :=
  { initialState with
    image := some imgC, history := [imgA, imgB, imgC], historyIndex := 2 }

/-! ### C1 -/

/-- C1: from any state whose cursor `k` satisfies `0 ≤ k < length history`
and whose image is present, a successful edit commit replaces the history
by `take (k+1) history ++ [next]` — where `next` carries the returned
base64 payload over the current image's mime type — and sets the cursor
to the new last index `k + 1`. -/
theorem commit_truncates_and_appends (s : AppState) (img : ImageData)
    (p msgId b : String) (himg : s.image = some img)
    (h0 : 0 ≤ s.historyIndex)
    (h1 : s.historyIndex < (s.history.length : Int)) :
    (handleSubmitPromptSuccess s p msgId b).history
      = s.history.take (s.historyIndex.toNat + 1) ++ [{ img with base64 := b }] ∧
    (handleSubmitPromptSuccess s p msgId b).historyIndex
      = s.historyIndex + 1 := by
  have hnn : (0 : Int) ≤ s.historyIndex + 1 := by omega
  have htn : (s.historyIndex + 1).toNat = s.historyIndex.toNat + 1 := by omega
  constructor
  · simp [handleSubmitPromptSuccess, himg, submitStart, submitSuccess,
      jsSliceTo_of_nonneg _ _ hnn, htn]
  · simp [handleSubmitPromptSuccess, himg, submitStart, submitSuccess,
      jsSliceTo_of_nonneg _ _ hnn, htn, List.length_take]
    omega

/-- Witness for C1, realizing the spec's scenario: history `[A, B, C]` at
cursor `2`, one `stepBack` (cursor `1`, showing `B`), then a successful
commit of payload `DDD` yields `[A, B, D]` at cursor `2`. -/
theorem commit_truncates_and_appends_witness :
    (handleUndo historyABC).historyIndex = 1 ∧
    (handleSubmitPromptSuccess (handleUndo historyABC) "add a hat" "7" "DDD").history
      = [imgA, imgB, ⟨"DDD", "image/png"⟩] ∧
    (handleSubmitPromptSuccess (handleUndo historyABC) "add a hat" "7" "DDD").historyIndex
      = 2 := by
  have h := commit_truncates_and_appends (handleUndo historyABC) imgB
    "add a hat" "7" "DDD" (by decide) (by decide) (by decide)
  refine ⟨by decide, ?_, ?_⟩
  · rw [h.1]; decide
  · rw [h.2]; decide

/-! ### C2 -/

/-- C2: a failed remote edit call leaves history, cursor, image, and mask
at their pre-submission values, and the message log returns to its
pre-submission value: the pre-flight step appended exactly the one
optimistic record, and the failure branch removes exactly it. -/
theorem failed_submit_rolls_back (s : AppState) (img : ImageData)
    (p msgId e : String) (himg : s.image = some img) :
    (submitStart s p msgId).messages = s.messages ++ [⟨msgId, "user", p⟩] ∧
    (handleSubmitPromptFail s p msgId e).history = s.history ∧
    (handleSubmitPromptFail s p msgId e).historyIndex = s.historyIndex ∧
    (handleSubmitPromptFail s p msgId e).image = s.image ∧
    (handleSubmitPromptFail s p msgId e).mask = s.mask ∧
    (handleSubmitPromptFail s p msgId e).messages = s.messages := by
  refine ⟨rfl, ?_, ?_, ?_, ?_, ?_⟩ <;>
    simp [handleSubmitPromptFail, himg, submitStart, submitFail,
      jsSliceTo_concat_neg_one]

/-- Witness for C2 at the concrete `[A, B, C]` state. -/
theorem failed_submit_rolls_back_witness :
    (handleSubmitPromptFail historyABC "oops" "9" geminiFailureMessage).history
      = historyABC.history ∧
    (handleSubmitPromptFail historyABC "oops" "9" geminiFailureMessage).image
      = historyABC.image ∧
    (handleSubmitPromptFail historyABC "oops" "9" geminiFailureMessage).messages
      = historyABC.messages := by
  have h := failed_submit_rolls_back historyABC imgC "oops" "9"
    geminiFailureMessage rfl
  exact ⟨h.2.1, h.2.2.2.1, h.2.2.2.2.2⟩

/-! ### C3 and C4: the cursor/image invariant over reachable states -/

theorem stateWF_initial : StateWF initialState := by
  constructor
  · intro _; exact ⟨rfl, rfl⟩
  · intro h; exact absurd rfl h

theorem stateWF_step (s : AppState) (e : AppEvent) (hs : StateWF s) :
    StateWF (step s e) := by
  cases e with
  | upload img =>
    constructor
    · intro h; simp [step, handleImageUpload] at h
    · intro _
      refine ⟨by simp [step, handleImageUpload], by simp [step, handleImageUpload], ?_⟩
      simp [step, handleImageUpload, jsGet]
  | uploadFail => exact hs
  | submitOk p msgId b =>
    cases himg : s.image with
    | none => simp only [step, handleSubmitPromptSuccess, himg]; exact hs
    | some img =>
      have hne : s.history ≠ [] := by
        intro h
        have h2 := (hs.1 h).2
        rw [himg] at h2; cases h2
      obtain ⟨h0, h1, _⟩ := hs.2 hne
      have hnn : (0 : Int) ≤ s.historyIndex + 1 := by omega
      have hhist : (step s (.submitOk p msgId b)).history
          = s.history.take (s.historyIndex + 1).toNat
            ++ [{ img with base64 := b }] := by
        simp [step, handleSubmitPromptSuccess, himg, submitSuccess,
          submitStart, jsSliceTo_of_nonneg _ _ hnn]
      have hidx : (step s (.submitOk p msgId b)).historyIndex
          = ((s.history.take (s.historyIndex + 1).toNat).length : Int) := by
        simp [step, handleSubmitPromptSuccess, himg, submitSuccess,
          submitStart, jsSliceTo_of_nonneg _ _ hnn]
      have him2 : (step s (.submitOk p msgId b)).image
          = some { img with base64 := b } := by
        simp [step, handleSubmitPromptSuccess, himg, submitSuccess, submitStart]
      constructor
      · intro h
        rw [hhist] at h
        simp at h
      · intro _
        refine ⟨?_, ?_, ?_⟩
        · rw [hidx]; omega
        · rw [hidx, hhist]
          simp
        · rw [him2, hidx, hhist, jsGet_concat_length]
  | submitErr p msgId e' =>
    cases himg : s.image with
    | none => simp only [step, handleSubmitPromptFail, himg]; exact hs
    | some img => simp only [step, handleSubmitPromptFail, himg]; exact hs
  | undo =>
    by_cases hc : s.historyIndex > 0
    · have hne : s.history ≠ [] := by
        intro h; have := (hs.1 h).1; omega
      obtain ⟨h0, h1, _⟩ := hs.2 hne
      simp only [step, handleUndo, if_pos hc]
      refine ⟨fun h => absurd h hne, fun _ => ⟨?_, ?_, rfl⟩⟩
      · show (0 : Int) ≤ s.historyIndex - 1
        omega
      · show s.historyIndex - 1 < (s.history.length : Int)
        omega
    · simp only [step, handleUndo, if_neg hc]; exact hs
  | redo =>
    by_cases hc : s.historyIndex < (s.history.length : Int) - 1
    · have hne : s.history ≠ [] := by
        intro h
        have h2 := (hs.1 h).1
        rw [h] at hc
        simp at hc
        omega
      obtain ⟨h0, h1, _⟩ := hs.2 hne
      simp only [step, handleRedo, if_pos hc]
      refine ⟨fun h => absurd h hne, fun _ => ⟨?_, ?_, rfl⟩⟩
      · show (0 : Int) ≤ s.historyIndex + 1
        omega
      · show s.historyIndex + 1 < (s.history.length : Int)
        omega
    · simp only [step, handleRedo, if_neg hc]; exact hs
  | clearImage =>
    exact ⟨fun _ => ⟨rfl, rfl⟩, fun h => absurd rfl h⟩
  | maskChange m => exact hs

theorem run_wf (evs : List AppEvent) (s : AppState) (hs : StateWF s) :
    StateWF (run s evs) := by
  induction evs generalizing s with
  | nil => exact hs
  | cons e rest ih => exact ih (step s e) (stateWF_step s e hs)

theorem reachable_wf (s : AppState) (h : Reachable s) : StateWF s := by
  obtain ⟨evs, rfl⟩ := h
  exact run_wf evs initialState stateWF_initial

/-- A concrete event trace: upload `A`, one successful edit, one undo. -/
def demoTrace : List AppEvent :=
  [AppEvent.upload imgA, AppEvent.submitOk "grayscale" "1" "XYZ", AppEvent.undo]

/-- The state the demo trace reaches. -/
def demoState : AppState := run initialState demoTrace

/-- C3: in every state reachable from the initial state by the modeled
operations, the cursor is in `[0, length)` whenever the history is
non-empty, and equals `-1` exactly when the history is empty. -/
theorem reachable_cursor_invariant (s : AppState) (h : Reachable s) :
    (s.history ≠ [] →
      0 ≤ s.historyIndex ∧ s.historyIndex < (s.history.length : Int)) ∧
    (s.historyIndex = -1 ↔ s.history = []) := by
  have hw := reachable_wf s h
  constructor
  · intro hne; exact ⟨(hw.2 hne).1, (hw.2 hne).2.1⟩
  · constructor
    · intro hidx
      by_contra hne
      have := (hw.2 hne).1
      omega
    · intro he; exact (hw.1 he).1

/-- Witness for C3 at the concrete reachable state of the demo trace. -/
theorem reachable_cursor_invariant_witness :
    demoState.history.length = 2 ∧ demoState.historyIndex = 0 ∧
    ((demoState.history ≠ [] →
      0 ≤ demoState.historyIndex ∧
      demoState.historyIndex < (demoState.history.length : Int)) ∧
    (demoState.historyIndex = -1 ↔ demoState.history = [])) :=
  ⟨by decide, by decide,
   reachable_cursor_invariant demoState ⟨demoTrace, rfl⟩⟩

/-- C4: in every reachable state the displayed image is exactly
`history[historyIndex]` — in particular `none` when the history is empty
and `some (history.get cursor)` when it is not. -/
theorem reachable_image_matches_cursor (s : AppState) (h : Reachable s) :
    s.image = jsGet s.history s.historyIndex ∧
    (s.history = [] → s.image = none) ∧
    (s.history ≠ [] → ∃ hlt : s.historyIndex.toNat < s.history.length,
      s.image = some (s.history.get ⟨s.historyIndex.toNat, hlt⟩)) := by
  have hw := reachable_wf s h
  by_cases hne : s.history = []
  · obtain ⟨hidx, himg⟩ := hw.1 hne
    refine ⟨?_, fun _ => himg, fun hn => absurd hne hn⟩
    rw [himg, hidx]
    simp [jsGet]
  · obtain ⟨h0, h1, heq⟩ := hw.2 hne
    have hlt : s.historyIndex.toNat < s.history.length := by omega
    refine ⟨heq, fun he => absurd he hne, fun _ => ⟨hlt, ?_⟩⟩
    rw [heq]
    simp only [jsGet, if_neg (by omega : ¬ s.historyIndex < 0)]
    exact List.get?_eq_get hlt

/-- Witness for C4 at the concrete reachable state of the demo trace. -/
theorem reachable_image_matches_cursor_witness :
    demoState.image = some imgA ∧
    (demoState.image = jsGet demoState.history demoState.historyIndex ∧
    (demoState.history = [] → demoState.image = none) ∧
    (demoState.history ≠ [] →
      ∃ hlt : demoState.historyIndex.toNat < demoState.history.length,
      demoState.image = some (demoState.history.get
        ⟨demoState.historyIndex.toNat, hlt⟩))) :=
  ⟨by decide,
   reachable_image_matches_cursor demoState ⟨demoTrace, rfl⟩⟩

/-! ### C5: mask emission at the end of a stroke -/

/-- A stroke just begun in brush mode: the path is open at `(5, 5)` but
nothing has been painted, so the overlay is still fully transparent. -/
def drawingState : MaskCanvasState :=
  startDrawing (toggleBrushMode initialMaskCanvasState) 5 5

/-- The mid-stroke state right after `handleClearMask`: the surface is
wiped (hence fully transparent), the emitted mask is `none`, and the
stroke is still in progress. -/
def transparentStrokeState : MaskCanvasState :=
  handleClearMask drawingState

/-- Counterexample to C5: `clearMask()` during a stroke, then `endStroke`
with no intervening drawing. The surface is fully transparent, yet
`stopDrawing` emits a present (non-`none`) mask — the serialization of
the blank canvas — because the code never checks for transparency. -/
theorem endStroke_transparent_emits_present_mask :
    fullyTransparent transparentStrokeState.segments = true ∧
    transparentStrokeState.isDrawing = true ∧
    transparentStrokeState.mask = none ∧
    (stopDrawing transparentStrokeState).mask
      = some ⟨serializeCanvas [], "image/png"⟩ ∧
    (stopDrawing transparentStrokeState).mask ≠ none := by
  refine ⟨rfl, rfl, rfl, rfl, ?_⟩
  have h : (stopDrawing transparentStrokeState).mask
      = some ⟨serializeCanvas [], "image/png"⟩ := rfl
  rw [h]
  exact Option.some_ne_none _

/-- C5 amended: `stopDrawing` emits a present mask — the serialized
overlay surface — whenever a stroke is in progress, with no transparency
check; when no stroke is in progress it is a strict no-op, so
`clearMask()` followed by `endStroke` with no active stroke leaves the
mask absent. Only `handleClearMask` (and the image-change effect) emit
an absent mask. -/
theorem endStroke_mask_emission (s : MaskCanvasState) :
    (s.isDrawing = true →
      (stopDrawing s).mask = some ⟨serializeCanvas s.segments, "image/png"⟩) ∧
    (s.isDrawing = false → stopDrawing s = s) ∧
    (handleClearMask s).mask = none ∧
    (imageChangeEffect s).mask = none ∧
    (s.isDrawing = false → (stopDrawing (handleClearMask s)).mask = none) := by
  refine ⟨?_, ?_, rfl, rfl, ?_⟩
  · intro h; simp [stopDrawing, h]
  · intro h; simp [stopDrawing, h]
  · intro h; simp [stopDrawing, handleClearMask, h]

/-- Witness for the amended C5, at a state with a stroke in progress and
at the idle initial state. -/
theorem endStroke_mask_emission_witness :
    (stopDrawing drawingState).mask
      = some ⟨serializeCanvas drawingState.segments, "image/png"⟩ ∧
    stopDrawing initialMaskCanvasState = initialMaskCanvasState ∧
    (stopDrawing (handleClearMask initialMaskCanvasState)).mask = none :=
  ⟨(endStroke_mask_emission drawingState).1 (by decide),
   (endStroke_mask_emission initialMaskCanvasState).2.1 (by decide),
   (endStroke_mask_emission initialMaskCanvasState).2.2.2.2 (by decide)⟩

/-! ### C6: any image-changing operation resets the mask -/

/-- Every `App` event either leaves the displayed image untouched or
results in an absent mask. -/
theorem image_change_frame (s : AppState) (e : AppEvent) :
    (step s e).mask = none ∨ (step s e).image = s.image := by
  cases e with
  | upload img => left; rfl
  | uploadFail => right; rfl
  | submitOk p msgId b =>
    cases himg : s.image with
    | none =>
      right
      simp [step, handleSubmitPromptSuccess, himg, submitNoImage]
    | some img =>
      left
      simp [step, handleSubmitPromptSuccess, himg, submitStart, submitSuccess]
  | submitErr p msgId e' =>
    cases himg : s.image with
    | none =>
      right
      simp [step, handleSubmitPromptFail, himg, submitNoImage]
    | some img =>
      right
      simp [step, handleSubmitPromptFail, himg, submitStart, submitFail]
  | undo =>
    by_cases hc : s.historyIndex > 0
    · left; simp [step, handleUndo, if_pos hc]
    · right; simp [step, handleUndo, if_neg hc]
  | redo =>
    by_cases hc : s.historyIndex < (s.history.length : Int) - 1
    · left; simp [step, handleRedo, if_pos hc]
    · right; simp [step, handleRedo, if_neg hc]
  | clearImage => left; rfl
  | maskChange m => right; rfl

/-- C6: a fresh upload, an effective undo, an effective redo, and a
successful commit each reset the mask to `none` as part of the
operation; and in general every `App` event either leaves the displayed
image untouched or results in an absent mask, so a mask drawn over one
image is never retained alongside a different displayed image. -/
theorem image_change_resets_mask (s : AppState) (img : ImageData)
    (p msgId b : String) :
    (handleImageUpload s img).mask = none ∧
    (s.historyIndex > 0 → (handleUndo s).mask = none) ∧
    (s.historyIndex < (s.history.length : Int) - 1 →
      (handleRedo s).mask = none) ∧
    (s.image = some img →
      (handleSubmitPromptSuccess s p msgId b).mask = none) ∧
    (∀ e : AppEvent, (step s e).mask = none ∨ (step s e).image = s.image) := by
  refine ⟨rfl, ?_, ?_, ?_, ?_⟩
  · intro hc; simp [handleUndo, if_pos hc]
  · intro hc; simp [handleRedo, if_pos hc]
  · intro himg
    simp [handleSubmitPromptSuccess, himg, submitStart, submitSuccess]
  · intro e
    exact image_change_frame s e

/-- Witness for C6 at concrete states where each of the four operations
actually changes the displayed image. -/
theorem image_change_resets_mask_witness :
    (handleImageUpload initialState imgA).mask = none ∧
    (handleUndo historyABC).mask = none ∧
    (handleRedo (handleUndo historyABC)).mask = none ∧
    (handleSubmitPromptSuccess historyABC "p" "1" "DDD").mask = none :=
  ⟨(image_change_resets_mask initialState imgA "p" "1" "DDD").1,
   (image_change_resets_mask historyABC imgC "p" "1" "DDD").2.1 (by decide),
   (image_change_resets_mask (handleUndo historyABC) imgB "p" "1" "DDD").2.2.1
     (by decide),
   (image_change_resets_mask historyABC imgC "p" "1" "DDD").2.2.2.1
     (by decide)⟩

/-! ### C7: the remote wrapper returns the first payload or one message -/

/-- C7: for every outcome of the network call, `editImageWithGemini`
either returns the first inline image payload of the response, or fails
with the single normalized message — the same for a transport error and
for a response with no image data. -/
theorem editImage_first_payload_or_normalized_error
    (result : RemoteCallResult) :
    (∃ resp d, result = RemoteCallResult.ok resp ∧
      firstInlineData (responseParts resp) = some d ∧
      editImageWithGemini result = Except.ok d) ∨
    editImageWithGemini result = Except.error geminiFailureMessage := by
  cases result with
  | transportError m => right; rfl
  | ok resp =>
    cases hd : firstInlineData (responseParts resp) with
    | none =>
      right
      simp [editImageWithGemini, hd]
    | some d =>
      left
      exact ⟨resp, d, rfl, hd, by simp [editImageWithGemini, hd]⟩

/-! ### C8: validation of submission attempts -/

/-- A state with an image loaded but a blank (whitespace-only) prompt and
no error banner. -/
def blankPromptState : AppState := { historyABC with prompt := "   " }

/-- Counterexample to C8: a submission attempt through the chat form with
a blank instruction is dropped silently — no state change, but also no
user-visible validation error is surfaced (the error stays `none`),
contrary to the claim that such an attempt is rejected with a
user-visible validation error. -/
theorem blank_submit_shows_no_error :
    blankPromptState.image.isSome = true ∧
    jsTrim blankPromptState.prompt = "" ∧
    blankPromptState.error = none ∧
    chatHandleSubmit blankPromptState "4"
      (RemoteOutcome.failure geminiFailureMessage) = blankPromptState ∧
    (chatHandleSubmit blankPromptState "4"
      (RemoteOutcome.failure geminiFailureMessage)).error = none := by
  refine ⟨rfl, by decide, rfl, ?_, ?_⟩ <;> decide

/-- C8 amended: a submission attempt through the chat form with a blank
trimmed instruction, an absent image, or a submission already in flight
is silently ignored: the gate does not dispatch (so no remote call is
made) and the state — history, cursor, image, mask, log, and error —
is entirely unchanged; no validation error is surfaced. A user-visible
validation error is produced only when the orchestrator is invoked
directly without an image, in which case it sets the error banner and
changes nothing else. -/
theorem invalid_submit_no_state_change (s : AppState) (msgId p : String)
    (o : RemoteOutcome) :
    ((jsTrim s.prompt = "" ∨ s.image = none ∨ s.loading = true) →
      chatSubmitDispatches s = false ∧ chatHandleSubmit s msgId o = s) ∧
    (s.image = none →
      (∀ b, handleSubmitPromptSuccess s p msgId b = submitNoImage s) ∧
      handleSubmitPromptFail s p msgId geminiFailureMessage = submitNoImage s ∧
      (submitNoImage s).error
        = some "Please upload an image before submitting a prompt." ∧
      (submitNoImage s).history = s.history ∧
      (submitNoImage s).historyIndex = s.historyIndex ∧
      (submitNoImage s).image = none ∧
      (submitNoImage s).mask = s.mask ∧
      (submitNoImage s).messages = s.messages) := by
  constructor
  · intro h
    have hd : chatSubmitDispatches s = false := by
      rcases h with h | h | h <;> simp [chatSubmitDispatches, h]
    exact ⟨hd, by simp [chatHandleSubmit, hd]⟩
  · intro himg
    refine ⟨?_, ?_, rfl, rfl, rfl, ?_, rfl, rfl⟩
    · intro b; simp [handleSubmitPromptSuccess, himg]
    · simp [handleSubmitPromptFail, himg]
    · show s.image = none
      exact himg

/-- Witness for the amended C8: the blank-prompt state is dropped
silently, the imageless initial state is dropped silently, and a direct
orchestrator call on the initial state only sets the error banner. -/
theorem invalid_submit_no_state_change_witness :
    (chatSubmitDispatches blankPromptState = false ∧
      chatHandleSubmit blankPromptState "4"
        (RemoteOutcome.failure geminiFailureMessage) = blankPromptState) ∧
    (chatSubmitDispatches initialState = false ∧
      chatHandleSubmit initialState "4"
        (RemoteOutcome.failure geminiFailureMessage) = initialState) ∧
    (submitNoImage initialState).error
      = some "Please upload an image before submitting a prompt." ∧
    (submitNoImage initialState).history = initialState.history :=
  ⟨(invalid_submit_no_state_change blankPromptState "4" "p"
      (RemoteOutcome.failure geminiFailureMessage)).1 (Or.inl (by decide)),
   (invalid_submit_no_state_change initialState "4" "p"
      (RemoteOutcome.failure geminiFailureMessage)).1 (Or.inr (Or.inl rfl)),
   ((invalid_submit_no_state_change initialState "4" "p"
      (RemoteOutcome.failure geminiFailureMessage)).2 rfl).2.2.1,
   ((invalid_submit_no_state_change initialState "4" "p"
      (RemoteOutcome.failure geminiFailureMessage)).2 rfl).2.2.2.1⟩

/-! ### C9: undo/redo never mutate the history sequence -/

/-- C9: `handleUndo` and `handleRedo` leave the history sequence (its
length and every entry) unchanged; undo decrements the cursor exactly
when `cursor > 0` and otherwise changes nothing at all; redo increments
the cursor exactly when `cursor < length - 1` and otherwise changes
nothing at all. -/
theorem undo_redo_frame (s : AppState) :
    (handleUndo s).history = s.history ∧
    (handleRedo s).history = s.history ∧
    (s.historyIndex > 0 →
      (handleUndo s).historyIndex = s.historyIndex - 1) ∧
    (¬ s.historyIndex > 0 → handleUndo s = s) ∧
    (s.historyIndex < (s.history.length : Int) - 1 →
      (handleRedo s).historyIndex = s.historyIndex + 1) ∧
    (¬ s.historyIndex < (s.history.length : Int) - 1 → handleRedo s = s) := by
  refine ⟨?_, ?_, ?_, ?_, ?_, ?_⟩
  · by_cases hc : s.historyIndex > 0 <;> simp [handleUndo, hc]
  · by_cases hc : s.historyIndex < (s.history.length : Int) - 1 <;>
      simp [handleRedo, hc]
  · intro hc; simp [handleUndo, if_pos hc]
  · intro hc; simp [handleUndo, if_neg hc]
  · intro hc; simp [handleRedo, if_pos hc]
  · intro hc; simp [handleRedo, if_neg hc]

/-- Witness for C9 at the `[A, B, C]` state (undo steps `2 → 1`, redo at
the last index is a no-op), after one undo (redo steps `1 → 2`), and at
the empty initial state (undo is a no-op). -/
theorem undo_redo_frame_witness :
    (handleUndo historyABC).history = historyABC.history ∧
    (handleUndo historyABC).historyIndex = historyABC.historyIndex - 1 ∧
    handleRedo historyABC = historyABC ∧
    handleUndo initialState = initialState ∧
    (handleRedo (handleUndo historyABC)).historyIndex
      = (handleUndo historyABC).historyIndex + 1 :=
  ⟨(undo_redo_frame historyABC).1,
   (undo_redo_frame historyABC).2.2.1 (by decide),
   (undo_redo_frame historyABC).2.2.2.2.2 (by decide),
   (undo_redo_frame initialState).2.2.2.1 (by decide),
   (undo_redo_frame (handleUndo historyABC)).2.2.2.2.1 (by decide)⟩

/-! ### C10: the input field is cleared before the call, never restored -/

/-- A concrete state with a pending instruction in the input field. -/
def promptState : AppState := { historyABC with prompt := "make it blue" }

/-- C10: for every accepted submission (image present), the pre-flight
step — everything `handleSubmitPrompt` runs before awaiting the remote
call — already clears the input field; and the failure branch leaves the
field cleared (it rolls back only the log entry, not the input). -/
theorem prompt_cleared_not_restored (s : AppState) (img : ImageData)
    (p msgId e : String) (himg : s.image = some img) :
    (submitStart s p msgId).prompt = "" ∧
    (handleSubmitPromptFail s p msgId e).prompt = "" ∧
    (handleSubmitPromptFail s p msgId e).messages = s.messages := by
  refine ⟨rfl, ?_, ?_⟩ <;>
    simp [handleSubmitPromptFail, himg, submitStart, submitFail,
      jsSliceTo_concat_neg_one]

/-- Witness for C10: a failing submission from a state whose input holds
`make it blue` ends with an empty input field, not the original text. -/
theorem prompt_cleared_not_restored_witness :
    promptState.prompt = "make it blue" ∧
    (submitStart promptState "make it blue" "3").prompt = "" ∧
    (handleSubmitPromptFail promptState "make it blue" "3"
      geminiFailureMessage).prompt = "" :=
  ⟨rfl,
   (prompt_cleared_not_restored promptState imgC "make it blue" "3"
      geminiFailureMessage rfl).1,
   (prompt_cleared_not_restored promptState imgC "make it blue" "3"
      geminiFailureMessage rfl).2.1⟩

end GeminiImageEditor
